import Mathlib

/-
Verification of the pain-point analysis pipeline of the reddit_startup_scraper
repository.  The Python modules under src/ are shallowly embedded as Lean
definitions: strings stay strings, Python floats become exact rationals (all
constants involved are decimal literals), fallible calls return Option, and
the provider network is an explicit oracle parameter.
-/

/-- Character-list substring test: true when the first list occurs as a
contiguous run inside the second. -/
def containsSub : List Char → List Char → Bool
  | needle, [] => needle.isEmpty
  | needle, c :: rest => needle.isPrefixOf (c :: rest) || containsSub needle rest

/-- Substring occurrence test: models the Python `needle in hay` operator on
strings (contiguous character run). -/
def occursIn (needle hay : String) : Bool :=
  containsSub needle.toList hay.toList

/-- Models Python `str.lower()` (character-wise lowercasing). -/
def pyLower (s : String) : String :=
  String.mk (s.toList.map Char.toLower)

/-- Round to the nearest integer, ties to even: models Python `round` on exact
decimal values (banker's rounding). -/
def pyRound (q : ℚ) : ℤ :=
  if q - (⌊q⌋ : ℚ) < 1/2 then ⌊q⌋
  else if 1/2 < q - (⌊q⌋ : ℚ) then ⌊q⌋ + 1
  else if ⌊q⌋ % 2 = 0 then ⌊q⌋ else ⌊q⌋ + 1

/-- Models Python `round(q, 3)` on exact decimal values. -/
def round3 (q : ℚ) : ℚ :=
  (pyRound (q * 1000) : ℚ) / 1000

/-
Confidence Scorer (src/scorers/confidence_scorer.py).
-/

/-- The six named confidence factors built by
`ConfidenceScorer.calculate_confidence` / `get_confidence_breakdown`
(dictionary keys in insertion order). -/
structure Factors where
  keyword_match : ℚ
  content_length : ℚ
  category_strength : ℚ
  engagement : ℚ
  text_quality : ℚ
  problem_clarity : ℚ

/-- Models Python `str.isupper()`: at least one cased character and every
cased character uppercase (cased characters approximated by letters). -/
def pyIsUpper (s : String) : Bool :=
  s.toList.any (fun c => c.isAlpha) && s.toList.all (fun c => !c.isAlpha || c.isUpper)

/-- First character of the string is uppercase (Python `title[0].isupper()`,
guarded by truthiness of the string). -/
def headIsUpper (s : String) : Bool :=
  match s.toList with
  | [] => false
  | c :: _ => c.isUpper

/-- Embeds `ConfidenceScorer._assess_text_quality`: base 0.5, the additive
adjustments in source order, final clamp to [0, 1]. -/
def assess_text_quality (title body : String) : ℚ :=
  let q : ℚ := 1/2
  let q := if !title.isEmpty && headIsUpper title then q + 1/10 else q
  let q := if title.length > 10 then q + 1/10 else q
  let q := if !body.isEmpty && body.length > 50 then q + 1/10 else q
  let q := if !body.isEmpty && body.toList.contains '.' then q + 1/10 else q
  let q := if pyIsUpper title then q - 1/5 else q
  let q := if occursIn "http" (pyLower body) || occursIn "www" (pyLower body) then q + 1/20 else q
  let q := if body.toList.count '!' > 2 then q - 1/10 else q
  max 0 (min 1 q)

/-- Embeds the factor dictionary built by both `calculate_confidence` and
`get_confidence_breakdown` (identical code in the two methods).  A missing
`keyword_matches` argument (Python `None`) is represented by `[]`, which is
falsy exactly like `None`. -/
def compute_factors (title body : String) (category_score : ℚ)
    (keyword_matches : List String) (upvotes num_comments : ℕ)
    (problem_score : Option ℚ) : Factors :=
  { keyword_match :=
      if keyword_matches.isEmpty then 3/10
      else min ((keyword_matches.length : ℚ) / 5) 1
    content_length :=
      let n := title.length + body.length
      if n < 50 then 3/10 else if n < 200 then 3/5
      else if n < 1000 then 4/5 else 1
    category_strength := category_score
    engagement := min (((upvotes : ℚ) + (num_comments : ℚ) * 2) / 100) 1
    text_quality := assess_text_quality title body
    problem_clarity := problem_score.getD (1/2) }

/-- The (value, weight) pairs traversed by `ConfidenceScorer._weighted_average`:
the factor dictionary in insertion order, each paired with its weight from
`self.weights` (0.25, 0.20, 0.20, 0.15, 0.10, 0.10). -/
def factorWeightPairs (f : Factors) : List (ℚ × ℚ) :=
  [(f.keyword_match, 1/4), (f.content_length, 1/5), (f.category_strength, 1/5),
   (f.engagement, 3/20), (f.text_quality, 1/10), (f.problem_clarity, 1/10)]

/-- Embeds `ConfidenceScorer._weighted_average`, including the dead guard for a
zero total weight. -/
def weighted_average (f : Factors) : ℚ :=
  let weighted_sum := (factorWeightPairs f).foldl (fun s p => s + p.1 * p.2) 0
  let total_weight := (factorWeightPairs f).foldl (fun s p => s + p.2) 0
  if total_weight = 0 then 1/2 else weighted_sum / total_weight

/-- Embeds `ConfidenceScorer.calculate_confidence`: the weighted average of the
six factors, blended 40/60 with an externally supplied AI confidence when one
is present. -/
def calculate_confidence (title body : String) (_category : String)
    (category_score : ℚ) (keyword_matches : List String)
    (upvotes num_comments : ℕ) (problem_score ai_confidence : Option ℚ) : ℚ :=
  let f := compute_factors title body category_score keyword_matches upvotes
    num_comments problem_score
  match ai_confidence with
  | some ai => weighted_average f * (2/5) + ai * (3/5)
  | none => weighted_average f

/-- Result record of `ConfidenceScorer.get_confidence_breakdown`. -/
structure ConfidenceBreakdown where
  overall_score : ℚ
  keyword_confidence : ℚ
  content_quality_confidence : ℚ
  engagement_confidence : ℚ
  category_confidence : ℚ

/-- Embeds `ConfidenceScorer.get_confidence_breakdown`: same factors as
`calculate_confidence`, overall score rounded to three decimals. -/
def get_confidence_breakdown (title body : String) (_category : String)
    (category_score : ℚ) (keyword_matches : List String)
    (upvotes num_comments : ℕ) (problem_score : Option ℚ) : ConfidenceBreakdown :=
  let f := compute_factors title body category_score keyword_matches upvotes
    num_comments problem_score
  { overall_score := round3 (weighted_average f)
    keyword_confidence := round3 f.keyword_match
    content_quality_confidence := round3 f.content_length
    engagement_confidence := round3 f.engagement
    category_confidence := round3 category_score }

/-- The weighted average of the six factors written out with its weights:
the total weight is exactly 1, so the guard branch is not taken. -/
lemma weighted_average_eq (f : Factors) :
    weighted_average f =
      f.keyword_match * (1/4) + f.content_length * (1/5) +
      f.category_strength * (1/5) + f.engagement * (3/20) +
      f.text_quality * (1/10) + f.problem_clarity * (1/10) := by
  simp only [weighted_average, factorWeightPairs, List.foldl]
  norm_num

/-- Claim C1: the weighted average uses exactly the documented weights
(keyword_match 0.25, content_length 0.20, category_strength 0.20,
engagement 0.15, text_quality 0.10, problem_clarity 0.10); whenever an AI
confidence is supplied the calculation returns 0.4 times the local weighted
average of the six factors plus 0.6 times the AI confidence; and a local
weighted average of 0.5 blended with an AI confidence of 0.9 yields exactly
0.74. -/
theorem confidence_blending_law :
    (∀ f : Factors, weighted_average f =
      f.keyword_match * (1/4) + f.content_length * (1/5) +
      f.category_strength * (1/5) + f.engagement * (3/20) +
      f.text_quality * (1/10) + f.problem_clarity * (1/10)) ∧
    (∀ (title body category : String) (category_score : ℚ)
      (keyword_matches : List String) (upvotes num_comments : ℕ)
      (problem_score : Option ℚ) (ai : ℚ),
      calculate_confidence title body category category_score keyword_matches
          upvotes num_comments problem_score (some ai) =
        (2/5) * weighted_average (compute_factors title body category_score
          keyword_matches upvotes num_comments problem_score) + (3/5) * ai) ∧
    (∀ (title body category : String) (category_score : ℚ)
      (keyword_matches : List String) (upvotes num_comments : ℕ)
      (problem_score : Option ℚ) (ai : ℚ),
      weighted_average (compute_factors title body category_score
        keyword_matches upvotes num_comments problem_score) = 1/2 →
      ai = 9/10 →
      calculate_confidence title body category category_score keyword_matches
        upvotes num_comments problem_score (some ai) = 74/100) := by
  refine ⟨?_, ?_, ?_⟩
  · exact weighted_average_eq
  · intro title body category category_score keyword_matches upvotes
      num_comments problem_score ai
    simp only [calculate_confidence]
    ring
  · intro title body category category_score keyword_matches upvotes
      num_comments problem_score ai h1 h2
    simp only [calculate_confidence, h1, h2]
    norm_num

/-- Witness for claim C1: concrete inputs whose local weighted average is
exactly 0.5, blended with AI confidence 0.9, give 0.74. -/
theorem confidence_blending_law_witness :
    calculate_confidence "" "" "x" 1 [] 20 0 (some (17/20)) (some (9/10)) = 74/100 := by
  have hfac : compute_factors "" "" 1 [] 20 0 (some (17/20)) =
      { keyword_match := 3/10, content_length := 3/10, category_strength := 1,
        engagement := 1/5, text_quality := 1/2, problem_clarity := 17/20 } := by
    simp +decide [compute_factors, assess_text_quality, min_def]
    norm_num
  have havg : weighted_average (compute_factors "" "" 1 [] 20 0 (some (17/20))) = 1/2 := by
    rw [hfac]
    simp only [weighted_average, factorWeightPairs, List.foldl]
    norm_num
  exact confidence_blending_law.2.2 "" "" "x" 1 [] 20 0 (some (17/20)) (9/10) havg rfl

/-
Claim C7: range safety of the confidence breakdown.
-/

lemma pyRound_nonneg {q : ℚ} (h : 0 ≤ q) : 0 ≤ pyRound q := by
  have hf : (0:ℤ) ≤ ⌊q⌋ := Int.floor_nonneg.mpr h
  unfold pyRound
  split_ifs <;> omega

lemma pyRound_le {q : ℚ} {n : ℤ} (h : q ≤ (n:ℚ)) : pyRound q ≤ n := by
  have hfl : ⌊q⌋ ≤ n := by
    have := Int.floor_mono h
    rwa [Int.floor_intCast] at this
  have hq : (⌊q⌋:ℚ) ≤ q := Int.floor_le q
  unfold pyRound
  split_ifs with h1 h2 h3
  · exact hfl
  · have hlt : (⌊q⌋:ℚ) < (n:ℚ) := by linarith
    have : ⌊q⌋ < n := by exact_mod_cast hlt
    omega
  · exact hfl
  · have heq : q - (⌊q⌋:ℚ) = 1/2 := le_antisymm (not_lt.mp h2) (not_lt.mp h1)
    have hlt : (⌊q⌋:ℚ) < (n:ℚ) := by linarith
    have : ⌊q⌋ < n := by exact_mod_cast hlt
    omega

lemma round3_bounds {q : ℚ} (h0 : 0 ≤ q) (h1 : q ≤ 1) :
    0 ≤ round3 q ∧ round3 q ≤ 1 := by
  have ha : 0 ≤ q * 1000 := by linarith
  have hb : q * 1000 ≤ ((1000:ℤ):ℚ) := by push_cast; linarith
  have c1 := pyRound_nonneg ha
  have c2 := pyRound_le hb
  unfold round3
  constructor
  · exact div_nonneg (by exact_mod_cast c1) (by norm_num)
  · rw [div_le_one (by norm_num)]
    exact_mod_cast c2

lemma clamp01_bounds (x : ℚ) : 0 ≤ max 0 (min 1 x) ∧ max 0 (min 1 x) ≤ 1 :=
  ⟨le_max_left 0 _, max_le (by norm_num) (min_le_left 1 x)⟩

lemma assess_text_quality_bounds (title body : String) :
    0 ≤ assess_text_quality title body ∧ assess_text_quality title body ≤ 1 :=
  clamp01_bounds _

lemma compute_factors_bounds (title body : String) (category_score : ℚ)
    (kws : List String) (up com : ℕ) (prob : Option ℚ)
    (hcs0 : 0 ≤ category_score) (hcs1 : category_score ≤ 1)
    (hp : ∀ p, prob = some p → 0 ≤ p ∧ p ≤ 1) :
    (0 ≤ (compute_factors title body category_score kws up com prob).keyword_match ∧
      (compute_factors title body category_score kws up com prob).keyword_match ≤ 1) ∧
    (0 ≤ (compute_factors title body category_score kws up com prob).content_length ∧
      (compute_factors title body category_score kws up com prob).content_length ≤ 1) ∧
    (0 ≤ (compute_factors title body category_score kws up com prob).category_strength ∧
      (compute_factors title body category_score kws up com prob).category_strength ≤ 1) ∧
    (0 ≤ (compute_factors title body category_score kws up com prob).engagement ∧
      (compute_factors title body category_score kws up com prob).engagement ≤ 1) ∧
    (0 ≤ (compute_factors title body category_score kws up com prob).text_quality ∧
      (compute_factors title body category_score kws up com prob).text_quality ≤ 1) ∧
    (0 ≤ (compute_factors title body category_score kws up com prob).problem_clarity ∧
      (compute_factors title body category_score kws up com prob).problem_clarity ≤ 1) := by
  refine ⟨?_, ?_, ⟨hcs0, hcs1⟩, ?_, assess_text_quality_bounds title body, ?_⟩
  · simp only [compute_factors]
    split_ifs with h
    · norm_num
    · refine ⟨le_min (div_nonneg (by positivity) (by norm_num)) (by norm_num), min_le_right _ _⟩
  · simp only [compute_factors]
    split_ifs <;> norm_num
  · simp only [compute_factors]
    refine ⟨le_min (div_nonneg (by positivity) (by norm_num)) (by norm_num), min_le_right _ _⟩
  · simp only [compute_factors]
    cases prob with
    | none => norm_num
    | some p => simpa using hp p rfl

lemma weighted_average_bounds {f : Factors}
    (h1 : 0 ≤ f.keyword_match ∧ f.keyword_match ≤ 1)
    (h2 : 0 ≤ f.content_length ∧ f.content_length ≤ 1)
    (h3 : 0 ≤ f.category_strength ∧ f.category_strength ≤ 1)
    (h4 : 0 ≤ f.engagement ∧ f.engagement ≤ 1)
    (h5 : 0 ≤ f.text_quality ∧ f.text_quality ≤ 1)
    (h6 : 0 ≤ f.problem_clarity ∧ f.problem_clarity ≤ 1) :
    0 ≤ weighted_average f ∧ weighted_average f ≤ 1 := by
  rw [weighted_average_eq]
  obtain ⟨a0, a1⟩ := h1
  obtain ⟨b0, b1⟩ := h2
  obtain ⟨c0, c1⟩ := h3
  obtain ⟨d0, d1⟩ := h4
  obtain ⟨e0, e1⟩ := h5
  obtain ⟨g0, g1⟩ := h6
  constructor <;> linarith

/-- Claim C7: for all title/body strings, a category score in [0,1], any
keyword-match list, non-negative engagement counts and an (optional) problem
score in [0,1], the overall confidence score of the breakdown lies in [0,1].
The embedding is a total function, mirroring the source's freedom from
exceptions on such inputs. -/
theorem overall_score_bounded :
    ∀ (title body category : String) (category_score : ℚ) (kws : List String)
      (up com : ℕ) (prob : Option ℚ),
      0 ≤ category_score → category_score ≤ 1 →
      (∀ p, prob = some p → 0 ≤ p ∧ p ≤ 1) →
      0 ≤ (get_confidence_breakdown title body category category_score kws up
            com prob).overall_score ∧
        (get_confidence_breakdown title body category category_score kws up
            com prob).overall_score ≤ 1 := by
  intro title body category category_score kws up com prob hcs0 hcs1 hp
  obtain ⟨h1, h2, h3, h4, h5, h6⟩ :=
    compute_factors_bounds title body category_score kws up com prob hcs0 hcs1 hp
  have hwa := weighted_average_bounds h1 h2 h3 h4 h5 h6
  have := round3_bounds hwa.1 hwa.2
  simpa only [get_confidence_breakdown] using this

/-- Witness for claim C7 at a concrete input. -/
theorem overall_score_bounded_witness :
    0 ≤ (get_confidence_breakdown "Need help" "stuff." "General Business"
          (1/2) ["a"] 3 1 none).overall_score ∧
      (get_confidence_breakdown "Need help" "stuff." "General Business"
          (1/2) ["a"] 3 1 none).overall_score ≤ 1 :=
  overall_score_bounded "Need help" "stuff." "General Business" (1/2) ["a"] 3 1
    none (by norm_num) (by norm_num) (fun p h => Option.noConfusion h)

/-
Category Classifier (src/categorizers/keyword_categorizer.py).
-/

/-- Keywords of category "Compliance & Data" (duplicates preserved). -/
def complianceDataKeywords : List String :=
  ["compliance", "gdpr", "hipaa", "legal", "regulation", "audit",
   "data privacy", "security", "certification", "license", "permit",
   "tax", "paperwork", "documentation", "record keeping", "reporting",
   "sox", "pci", "data protection", "privacy policy", "terms of service",
   "liability", "insurance", "permit", "zoning", "permitting"]

/-- Keywords of category "Automated Hiring". -/
def automatedHiringKeywords : List String :=
  ["hiring", "recruit", "recruiting", "job posting", "resume", "interview",
   "candidate", "talent", "employee", "employees", "onboarding", "staffing",
   "human resources", "hr", "payroll", "benefits", "hiring process",
   "recruitment", "headhunter", "staff", "workforce", "labor", "contractor",
   "job description", "hiring manager", "talent acquisition"]

/-- Keywords of category "Workflow Inefficiency". -/
def workflowInefficiencyKeywords : List String :=
  ["workflow", "process", "efficiency", "efficiencies", "manual", "automate",
   "automated", "automation", "repetitive", "time consuming", "bottleneck",
   "slow", "tedious", "streamline", "optimize", "optimization", "productivity",
   "task", "tasks", "integration", "integrations", "connecting", "connect",
   "sync", "synchronize", "data entry", "copy paste", "copying", "pasting"]

/-- Keywords of category "Customer Management". -/
def customerManagementKeywords : List String :=
  ["customer", "client", "clients", "relationship", "crm", "support",
   "communication", "email", "emails", "follow up", "follow-up", "lead", "leads",
   "sales pipeline", "onboarding", "retention", "satisfaction", "feedback",
   "review", "reviews", "referral", "referrals", "churn", "acquisition",
   "account management", "customer success", "support ticket", "help desk"]

/-- Keywords of category "Financial Management" (duplicates preserved). -/
def financialManagementKeywords : List String :=
  ["invoice", "invoicing", "payment", "payments", "billing", "accounting",
   "budget", "budgeting", "expense", "expenses", "revenue", "profit",
   "cash flow", "bookkeeping", "finance", "financial", "cost", "costs",
   "pricing", "quote", "estimate", "financial", "taxes", "tax return",
   "bookkeeper", "quickbooks", "xero", "expense report", "reimbursement"]

/-- Keywords of category "Project Management". -/
def projectManagementKeywords : List String :=
  ["project", "projects", "deadline", "deadlines", "timeline", "timelines",
   "milestone", "task management", "team collaboration", "collaborate",
   "assign", "tracking", "track", "progress", "kanban", "agile", "scrum",
   "sprint", "deliverable", "stakeholder", "stakeholders", "gantt",
   "resource allocation", "capacity planning", "workload", "prioritization",
   "roadmap", "planning", "scheduling", "calendar", "reminder", "reminders"]

/-- Keywords of category "Marketing & Sales". -/
def marketingSalesKeywords : List String :=
  ["marketing", "advertising", "social media", "seo", "content", "contents",
   "lead generation", "conversion", "conversions", "campaign", "brand",
   "outreach", "cold call", "cold calling", "email marketing", "analytics",
   "metrics", "roi", "return on investment", "facebook", "instagram",
   "linkedin", "twitter", "tiktok", "youtube", "television", "tv",
   "print advertising", "google ads", "marketing automation", "crm",
   "pipeline", "closing deals", "sales", "selling", "proposal", "proposals"]

/-- Keywords of category "Inventory & Operations". -/
def inventoryOperationsKeywords : List String :=
  ["inventory", "stock", "supply chain", "logistics", "shipping",
   "warehouse", "order management", "procurement", "vendor", "supplier",
   "fulfillment", "tracking", "track", "delivery", "manufacturing",
   "production", "assembly", "components", "parts", "materials",
   "order fulfillment", "dropshipping", "ecommerce", "online store",
   "product catalog", "sku", "barcode", "qr code", "inventory management"]

/-- Keywords of category "Technical & IT". -/
def technicalItKeywords : List String :=
  ["website", "websites", "domain", "hosting", "server", "servers", "api",
   "integration", "integrations", "software", "tool", "tools", "database",
   "backup", "migration", "password", "passwords", "authentication",
   "cloud", "cyber", "technical issue", "bug", "bugs", "glitch",
   "website builder", "wordpress", "shopify", "host", "domain name",
   "ssl", "certificate", "dns", "redirect", "page speed", "loading",
   "mobile app", "ios", "android", "application", "app", "apps",
   "software as a service", "saas", "subscription", "licensing", "license"]

/-- Keywords of category "Real Estate & Property". -/
def realEstateKeywords : List String :=
  ["real estate", "property", "properties", "tenant", "tenants", "landlord",
   "rental", "rentals", "lease", "leasing", "mortgage", "home", "homes",
   "commercial", "residential", "investment property", "flip", "flipping",
   "renovation", "remodel", "construction", "building", "listings",
   "mls", "realtor", "broker", "real estate agent", "showings", "viewings"]

/-- Keywords of category "Food & Hospitality". -/
def foodHospitalityKeywords : List String :=
  ["restaurant", "restaurants", "food", "cafe", "café", "coffee", "catering",
   "menu", "ordering", "online ordering", "delivery", "takeout", "pickup",
   "reservations", "table management", "point of sale", "pos", "hospitality",
   "hotel", "hotels", "motel", "accommodation", "booking", "guest", "guests",
   "kitchen", "chef", "cooking", "recipe", "recipes", "inventory", "food cost"]

/-- Keywords of category "Health & Wellness". -/
def healthWellnessKeywords : List String :=
  ["health", "healthcare", "medical", "doctor", "clinic", "hospital",
   "patient", "patients", "wellness", "fitness", "gym", "workout",
   "nutrition", "diet", "supplement", "supplements", "therapy", "mental health",
   "telemedicine", "health insurance", "appointment", "scheduling", "billing",
   "electronic health records", "ehr", "emr", "prescription", "pharmacy"]

/-- Keywords of category "Education & Training" (duplicates preserved). -/
def educationTrainingKeywords : List String :=
  ["education", "learning", "course", "courses", "training", "tutorial",
   "tutorials", "class", "classes", "student", "students", "teacher",
   "teachers", "school", "schools", "university", "college", "university",
   "curriculum", "syllabus", "assignment", "homework", "grading", "lms",
   "learning management", "elearning", "online course", "certification",
   "certificate", "workshop", "webinar", "knowledge base", "help center"]

/-- Keywords of category "General Business". -/
def generalBusinessKeywords : List String :=
  ["business", "businesses", "company", "companies", "startup", "startups",
   "entrepreneur", "entrepreneurs", "small business", "owner", "owners",
   "manager", "management", "operate", "operating", "running a business",
   "grow business", "scale business", "revenue", "income", "expense"]

/-- The `KeywordCategorizer.CATEGORIES` dictionary in declaration order. -/
def CATEGORIES : List (String × List String) :=
  [("Compliance & Data", complianceDataKeywords),
   ("Automated Hiring", automatedHiringKeywords),
   ("Workflow Inefficiency", workflowInefficiencyKeywords),
   ("Customer Management", customerManagementKeywords),
   ("Financial Management", financialManagementKeywords),
   ("Project Management", projectManagementKeywords),
   ("Marketing & Sales", marketingSalesKeywords),
   ("Inventory & Operations", inventoryOperationsKeywords),
   ("Technical & IT", technicalItKeywords),
   ("Real Estate & Property", realEstateKeywords),
   ("Food & Hospitality", foodHospitalityKeywords),
   ("Health & Wellness", healthWellnessKeywords),
   ("Education & Training", educationTrainingKeywords),
   ("General Business", generalBusinessKeywords)]

/-- Weight of one matched keyword: 2 for a multi-word phrase (contains a
space), 1 for a single word. -/
def keywordWeight (kw : String) : ℚ :=
  if kw.toList.contains ' ' then 2 else 1

/-- Case-folded concatenation `f"{title} {body}".lower()` shared by
`categorize` and `categorize_with_details`. -/
def lowerContent (title body : String) : String :=
  pyLower (title ++ " " ++ body)

/-- Keywords of one category found in the content (the `found_keywords`
accumulator of the source loop). -/
def matchedIn (content : String) (kws : List String) : List String :=
  kws.filter (fun kw => occursIn kw content)

/-- The raw `category_score` accumulated by `KeywordCategorizer.categorize`:
each matched keyword contributes its weight once. -/
def category_raw_score (content : String) (kws : List String) : ℚ :=
  (matchedIn content kws).foldl (fun s kw => s + keywordWeight kw) 0

/-- Result record of `KeywordCategorizer.categorize`. -/
structure CategoryMatch where
  category : String
  score : ℚ
  matched_keywords : List String

/-- The `scores` / `matched_keywords` dictionaries of `categorize`: one
entry per category with at least one keyword match, in declaration order. -/
def scoredCategories (content : String) : List (String × ℚ × List String) :=
  CATEGORIES.filterMap (fun p =>
    if (matchedIn content p.2).isEmpty then none
    else some (p.1, category_raw_score content p.2, matchedIn content p.2))

/-- Python `max(scores, key=scores.get)`: the first entry attaining the
maximal score (later entries replace only on a strictly greater score). -/
def pickBest (x : String × ℚ × List String) (l : List (String × ℚ × List String)) :
    String × ℚ × List String :=
  l.foldl (fun acc y => if y.2.1 > acc.2.1 then y else acc) x

/-- Python `max(scores.values())`. -/
def maxVal (m : ℚ) (l : List ℚ) : ℚ :=
  l.foldl max m

/-- Embeds `KeywordCategorizer.categorize`, default categories: score each
category, return "General Business"/0.1 when nothing matches, otherwise the
arg-max category with its score normalized by the maximal score (with the
source's dead guard for a non-positive maximum). -/
def categorize (title body : String) : CategoryMatch :=
  match scoredCategories (lowerContent title body) with
  | [] => ⟨"General Business", 1/10, []⟩
  | x :: rest =>
    let best := pickBest x rest
    let max_score := maxVal x.2.1 (rest.map (fun y => y.2.1))
    let normalized := if max_score > 0 then best.2.1 / max_score else 1/2
    ⟨best.1, round3 normalized, best.2.2⟩

lemma foldl_add_map {α : Type} (w : α → ℚ) (l : List α) :
    ∀ s : ℚ, l.foldl (fun a x => a + w x) s = s + (l.map w).sum := by
  induction l with
  | nil => intro s; simp
  | cons x xs ih =>
    intro s
    simp only [List.foldl_cons, List.map_cons, List.sum_cons]
    rw [ih]
    ring

lemma keywordWeight_ge_one (kw : String) : 1 ≤ keywordWeight kw := by
  unfold keywordWeight
  split_ifs <;> norm_num

lemma one_le_category_raw_score {content : String} {kws : List String}
    (h : matchedIn content kws ≠ []) : 1 ≤ category_raw_score content kws := by
  unfold category_raw_score
  rw [foldl_add_map]
  cases hm : matchedIn content kws with
  | nil => exact absurd hm h
  | cons k ks =>
    simp only [List.map_cons, List.sum_cons]
    have h1 := keywordWeight_ge_one k
    have h2 : 0 ≤ (ks.map keywordWeight).sum := by
      apply List.sum_nonneg
      intro q hq
      simp only [List.mem_map] at hq
      obtain ⟨a, _, rfl⟩ := hq
      linarith [keywordWeight_ge_one a]
    linarith

lemma scoredCategories_score_ge_one (content : String) :
    ∀ e ∈ scoredCategories content, 1 ≤ e.2.1 := by
  intro e he
  unfold scoredCategories at he
  rw [List.mem_filterMap] at he
  obtain ⟨p, _, hp⟩ := he
  by_cases h : (matchedIn content p.2).isEmpty
  · rw [if_pos h] at hp
    exact Option.noConfusion hp
  · rw [if_neg h] at hp
    injection hp with hp
    subst hp
    apply one_le_category_raw_score
    intro hnil
    rw [hnil] at h
    exact h rfl

lemma pickBest_score_eq_maxVal (l : List (String × ℚ × List String)) :
    ∀ x, (pickBest x l).2.1 = maxVal x.2.1 (l.map (fun y => y.2.1)) := by
  induction l with
  | nil => intro x; simp [pickBest, maxVal]
  | cons y ys ih =>
    intro x
    simp only [pickBest, List.foldl_cons, maxVal, List.map_cons]
    have step := ih (if y.2.1 > x.2.1 then y else x)
    simp only [pickBest, maxVal] at step
    rw [step]
    congr 1
    by_cases h : y.2.1 > x.2.1
    · simp [h, max_eq_right (le_of_lt h)]
    · simp [h, max_eq_left (not_lt.mp h)]

lemma le_maxVal (l : List ℚ) : ∀ m : ℚ, m ≤ maxVal m l := by
  induction l with
  | nil => intro m; simp [maxVal]
  | cons x xs ih =>
    intro m
    simp only [maxVal, List.foldl_cons]
    exact le_trans (le_max_left m x) (ih (max m x))

lemma scoredCategories_ne_nil_of_any {content : String}
    (h : CATEGORIES.any (fun p => p.2.any (fun kw => occursIn kw content)) = true) :
    scoredCategories content ≠ [] := by
  rw [List.any_eq_true] at h
  obtain ⟨p, hp, hkw⟩ := h
  rw [List.any_eq_true] at hkw
  obtain ⟨kw, hkwmem, hocc⟩ := hkw
  have hmem : kw ∈ matchedIn content p.2 := by
    unfold matchedIn
    rw [List.mem_filter]
    exact ⟨hkwmem, hocc⟩
  have hne : ¬ (matchedIn content p.2).isEmpty = true := by
    intro h0
    rw [List.isEmpty_iff] at h0
    rw [h0] at hmem
    exact List.not_mem_nil kw hmem
  have hmem2 : (p.1, category_raw_score content p.2, matchedIn content p.2) ∈
      scoredCategories content := by
    unfold scoredCategories
    rw [List.mem_filterMap]
    exact ⟨p, hp, by rw [if_neg hne]⟩
  exact List.ne_nil_of_mem hmem2

lemma round3_one : round3 (1 : ℚ) = 1 := by
  have h1 : ((1:ℚ) * 1000) = ((1000:ℤ) : ℚ) := by norm_num
  unfold round3 pyRound
  rw [h1, Int.floor_intCast]
  norm_num

lemma categorize_score_of_cons {title body : String} {x : String × ℚ × List String}
    {rest : List (String × ℚ × List String)}
    (h : scoredCategories (lowerContent title body) = x :: rest) :
    (categorize title body).score = 1 := by
  have hx : 1 ≤ x.2.1 := by
    apply scoredCategories_score_ge_one (lowerContent title body)
    rw [h]
    exact List.mem_cons_self x rest
  have hmax : x.2.1 ≤ maxVal x.2.1 (rest.map (fun y => y.2.1)) := le_maxVal _ _
  have hpos : 0 < maxVal x.2.1 (rest.map (fun y => y.2.1)) := by linarith
  unfold categorize
  rw [h]
  simp only [pickBest_score_eq_maxVal, if_pos hpos,
    div_self (ne_of_gt hpos), round3_one]

/-- Claim C10: whenever at least one keyword of any category occurs in the
case-folded title+body, the classifier's returned normalized score is exactly
1 (the winner's raw score divided by the maximal raw score, its own); hence
the returned score is always either 0.1 (no match, default category) or 1. -/
theorem categorize_score_two_values :
    ∀ title body : String,
      ((categorize title body).score = 1/10 ∨ (categorize title body).score = 1) ∧
      (CATEGORIES.any (fun p => p.2.any (fun kw =>
          occursIn kw (lowerContent title body))) = true →
        (categorize title body).score = 1) := by
  intro title body
  cases hsc : scoredCategories (lowerContent title body) with
  | nil =>
    constructor
    · left
      unfold categorize
      rw [hsc]
    · intro hany
      exact absurd hsc (scoredCategories_ne_nil_of_any hany)
  | cons x rest =>
    constructor
    · right
      exact categorize_score_of_cons hsc
    · intro _
      exact categorize_score_of_cons hsc

/-- Witness for claim C10: the post "tax" matches a keyword and gets
normalized score exactly 1. -/
theorem categorize_score_two_values_witness : (categorize "tax" "").score = 1 :=
  (categorize_score_two_values "tax" "").2 (by decide)

/-- Occurrence count of `needle` in `hay`: the number of character positions
at which `needle` starts (used only to state the spec's occurrence-weighted
scoring variant). -/
def countOccurrences (needle hay : String) : ℕ :=
  (List.range (hay.toList.length + 1)).countP
    (fun i => needle.toList.isPrefixOf (hay.toList.drop i))

/-- Modelled from the spec: "Score per category = Σ over matched keywords of
(occurrence_count × weight)" — the occurrence-weighted variant claim C2
declares canonical.  Stated only to be compared against the source's
`category_raw_score`. -/
def spec_occurrence_score (content : String) (kws : List String) : ℚ :=
  ((kws.filter (fun kw => occursIn kw content)).map
    (fun kw => (countOccurrences kw content : ℚ) * keywordWeight kw)).sum

/-- Counterexample to claim C2 as stated: on the post titled "tax tax" the
Compliance & Data keyword "tax" occurs twice, so the spec's
occurrence-weighted formula gives 2, while the classifier's raw score is 1
(each matched keyword is counted once, regardless of occurrences). -/
theorem category_score_occurrence_counterexample :
    ("Compliance & Data", complianceDataKeywords) ∈ CATEGORIES ∧
    category_raw_score (lowerContent "tax tax" "") complianceDataKeywords = 1 ∧
    spec_occurrence_score (lowerContent "tax tax" "") complianceDataKeywords = 2 ∧
    category_raw_score (lowerContent "tax tax" "") complianceDataKeywords ≠
      spec_occurrence_score (lowerContent "tax tax" "") complianceDataKeywords := by
  have hmatched : matchedIn (lowerContent "tax tax" "") complianceDataKeywords
      = ["tax"] := by decide
  have hcount : countOccurrences "tax" (lowerContent "tax tax" "") = 2 := by decide
  have hw : keywordWeight "tax" = 1 := by
    unfold keywordWeight
    rw [if_neg (by decide)]
  have hraw : category_raw_score (lowerContent "tax tax" "") complianceDataKeywords
      = 1 := by
    unfold category_raw_score
    rw [hmatched]
    simp [hw]
  have hspec : spec_occurrence_score (lowerContent "tax tax" "") complianceDataKeywords
      = 2 := by
    unfold spec_occurrence_score
    have hfil : complianceDataKeywords.filter
        (fun kw => occursIn kw (lowerContent "tax tax" "")) = ["tax"] := hmatched
    rw [hfil]
    simp [hcount, hw]
  refine ⟨by decide, hraw, hspec, ?_⟩
  rw [hraw, hspec]
  norm_num

/-- Claim C2 (amended): for every title and body and every category of the
classifier, the raw score equals the sum over that category's matched
keywords of the keyword's weight counted ONCE per keyword (weight 2 for a
multi-word phrase, 1 for a single word) — the count-once variant, not the
occurrence-weighted one. -/
theorem category_raw_score_count_once :
    ∀ (title body cat : String) (kws : List String),
      (cat, kws) ∈ CATEGORIES →
      category_raw_score (lowerContent title body) kws =
        ((kws.filter (fun kw => occursIn kw (lowerContent title body))).map
          keywordWeight).sum := by
  intro title body cat kws _
  unfold category_raw_score matchedIn
  rw [foldl_add_map]
  ring

/-- Witness for claim C2 (amended) at the Compliance & Data category and the
post "tax tax". -/
theorem category_raw_score_count_once_witness :
    category_raw_score (lowerContent "tax tax" "") complianceDataKeywords =
      ((complianceDataKeywords.filter
        (fun kw => occursIn kw (lowerContent "tax tax" ""))).map
          keywordWeight).sum :=
  category_raw_score_count_once "tax tax" "" "Compliance & Data"
    complianceDataKeywords (by decide)

/-
Problem Indicator Detector (src/detectors/problem_phrase_detector.py).
-/

/-- The `ProblemPhraseDetector.PROBLEM_PHRASES` list (all distinct, so the
source's `set()` de-duplication of matches keeps one entry per phrase). -/
def PROBLEM_PHRASES : List String :=
  ["i hate when", "it\x27s so annoying that", "frustrated with",
   "frustrating part", "annoying problem", "this is so frustrating",
   "really bothers me", "drives me crazy", "pet peeve",
   "wish there was", "wishes there was", "wish i could", "i wish",
   "someone should make", "need a better way",
   "how can i automate", "tired of doing", "waste so much time",
   "manual process", "keep forgetting", "so inefficient",
   "too complicated", "overwhelmed by", "bottleneck",
   "is there an app for", "looking for a way to", "looking for software",
   "anyone know of", "can anyone recommend", "need help with",
   "how do you handle", "does anyone else",
   "problem with", "pain point", "struggling with", "difficult to manage",
   "hard to manage", "challenge with", "issue with"]

/-- The local `high_value_phrases` list of
`ProblemPhraseDetector.score_problem_indicator` (9 fixed phrases). -/
def high_value_phrases : List String :=
  ["i hate when", "frustrated with", "tired of doing",
   "waste so much time", "manual process", "wish there was",
   "is there an app for", "need a better way", "so inefficient"]

/-- The case-folded `full_text = f"{title} {body}".lower()` the detector
scores. -/
def full_text (title body : String) : String :=
  pyLower (title ++ " " ++ body)

/-- The distinct matched phrases (`phrases_found`): every problem phrase that
occurs as a substring of the case-folded text (the source lowercases the
phrase again inside `find_all_matches`; phrases are already lowercase). -/
def phrases_found (title body : String) : List String :=
  PROBLEM_PHRASES.filter (fun p => occursIn (pyLower p) (full_text title body))

/-- The matched phrases that are high-value (`top_phrases`). -/
def top_phrases (title body : String) : List String :=
  (phrases_found title body).filter (fun p => high_value_phrases.contains p)

/-- The accumulated score: 1.0 per distinct matched phrase, 2.0 when the
phrase is high-value. -/
def phrase_sum (title body : String) : ℚ :=
  (phrases_found title body).foldl
    (fun s p => s + (if high_value_phrases.contains p then 2 else 1)) 0

/-- The normalization denominator
`max_possible = len(high_value_phrases) + (len(phrases_found) - len(top_phrases))`
(Python int arithmetic, hence ℤ). -/
def max_possible (title body : String) : ℤ :=
  (high_value_phrases.length : ℤ) +
    ((phrases_found title body).length - (top_phrases title body).length)

/-- Result record of `ProblemPhraseDetector.score_problem_indicator`
(the fields the claims are about). -/
structure ProblemScore where
  has_problem : Bool
  score : ℚ
  phrase_count : ℕ
  severity : String

/-- Embeds `ProblemPhraseDetector.score_problem_indicator`, including the
`if max_possible > 0 ... else 0.5` guard. -/
def score_problem_indicator (title body : String) : ProblemScore :=
  if (phrases_found title body).isEmpty then
    ⟨false, 0, 0, "none"⟩
  else
    let normalized : ℚ :=
      if 0 < max_possible title body then
        min (phrase_sum title body / (max_possible title body : ℚ)) 1
      else 1/2
    let severity := if normalized ≥ 7/10 then "high"
      else if normalized ≥ 2/5 then "medium" else "low"
    ⟨true, round3 normalized, (phrases_found title body).length, severity⟩

/-- Counterexample to claim C6 as stated: no title and body at all make the
detector's denominator zero, because `len(high_value_phrases)` is the length
of the fixed 9-element list — not the number of matched high-value phrases —
so `max_possible ≥ 9` always. -/
theorem detector_denominator_never_zero :
    ¬ ∃ title body : String,
        phrases_found title body ≠ [] ∧ max_possible title body = 0 := by
  rintro ⟨t, b, -, h0⟩
  have hle : (top_phrases t b).length ≤ (phrases_found t b).length :=
    List.length_filter_le _ _
  have h9 : (high_value_phrases.length : ℤ) = 9 := by decide
  unfold max_possible at h0
  rw [h9] at h0
  omega

/-- Claim C6 (amended): the detector's denominator `max_possible` is always at
least 9 (the high-value term is the size of the full fixed high-value list),
so it is never zero, the degenerate 0.5 default is unreachable, and whenever
at least one phrase matches the returned score is exactly
`round(min(sum / max_possible, 1), 3)`. -/
theorem detector_denominator_ge_nine :
    ∀ title body : String,
      9 ≤ max_possible title body ∧
      (phrases_found title body ≠ [] →
        (score_problem_indicator title body).score =
          round3 (min (phrase_sum title body / (max_possible title body : ℚ)) 1)) := by
  intro t b
  have hle : (top_phrases t b).length ≤ (phrases_found t b).length :=
    List.length_filter_le _ _
  have h9 : (high_value_phrases.length : ℤ) = 9 := by decide
  have hge : 9 ≤ max_possible t b := by
    unfold max_possible
    rw [h9]
    omega
  refine ⟨hge, fun hne => ?_⟩
  have hbool : ¬ (phrases_found t b).isEmpty = true := by
    rw [List.isEmpty_iff]
    exact hne
  have hpos : 0 < max_possible t b := by omega
  simp only [score_problem_indicator]
  rw [if_neg hbool]
  simp only [if_pos hpos]

/-- Witness for claim C6 (amended) on the post "i wish there was". -/
theorem detector_denominator_ge_nine_witness :
    (score_problem_indicator "i wish there was" "").score =
      round3 (min (phrase_sum "i wish there was" "" /
        (max_possible "i wish there was" "" : ℚ)) 1) :=
  (detector_denominator_ge_nine "i wish there was" "").2 (by decide)

/-
Provider Client (src/analyzers/gemini_client.py).
-/

/-- Models Python `str.strip()`: whitespace removed from both ends. -/
def pyStrip (s : String) : String :=
  String.mk (((s.toList.dropWhile Char.isWhitespace).reverse.dropWhile
    Char.isWhitespace).reverse)

/-- Models Python `s.startswith(pre)`. -/
def pyStartsWith (s pre : String) : Bool :=
  pre.toList.isPrefixOf s.toList

/-- Models Python `s.endswith(suf)`. -/
def pyEndsWith (s suf : String) : Bool :=
  suf.toList.isSuffixOf s.toList

/-- Models Python slicing `s[n:]` (by characters). -/
def pyDrop (s : String) (n : ℕ) : String :=
  String.mk (s.toList.drop n)

/-- Models Python slicing `s[:-n]` (by characters): keep all but the last
`n` characters. -/
def pyDropRight (s : String) (n : ℕ) : String :=
  String.mk (s.toList.take (s.toList.length - n))

/-- The markdown fence-stripping step of `GeminiClient._parse_response`:
strip, drop a leading three-backtick prefix followed by json or a bare
three-backtick prefix, drop a trailing three-backtick suffix, strip again. -/
def strip_fences (text : String) : String :=
  let cleaned := pyStrip text
  let cleaned :=
    if pyStartsWith cleaned "```json" then pyDrop cleaned 7
    else if pyStartsWith cleaned "```" then pyDrop cleaned 3
    else cleaned
  let cleaned := if pyEndsWith cleaned "```" then pyDropRight cleaned 3 else cleaned
  pyStrip cleaned

/-- Embeds `GeminiClient._parse_response`, parameterized by the JSON decoder
(`json.loads` is an external library, modelled as an abstract decoder):
direct parse; on failure strip the markdown fences and parse exactly once
more; a second failure is a parse failure (`none`), never an exception. -/
def parse_response {J : Type} (decode : String → Option J) (text : String) :
    Option J :=
  match decode text with
  | some v => some v
  | none => decode (strip_fences text)

/-- The `rate_limit_indicators` list of `GeminiClient._is_rate_limit_error`
in source order. -/
def rate_limit_indicators : List String :=
  ["429", "rate limit", "too many", "resource has", "quota", "rate exceeded"]

/-- Embeds `GeminiClient._is_rate_limit_error`: the client observes an error
only through its string form (`str(error).lower()`); an HTTP 429 status
surfaces there as the substring "429". -/
def is_rate_limit_error (msg : String) : Bool :=
  rate_limit_indicators.any (fun s => occursIn s (pyLower msg))

/-- Outcome of one provider call inside the retry loop: a response text, or a
raised exception carrying its message. -/
inductive ProviderOutcome where
  | ok (text : String)
  | err (msg : String)

/-- The retry loop of `GeminiClient._analyze_with_retry`, from loop counter
`attempt`: returns (number of provider attempts made, analysis result).
The provider is an oracle mapping the attempt index to its outcome; on a
rate-limit error with budget left the loop sleeps and retries, otherwise it
returns `None` (failure). -/
def analyze_with_retry_go {J : Type} (decode : String → Option J)
    (provider : ℕ → ProviderOutcome) (max_retries : ℕ) (attempt : ℕ) :
    ℕ × Option J :=
  match provider attempt with
  | .ok t => (1, parse_response decode t)
  | .err m =>
    if is_rate_limit_error m then
      if h : attempt < max_retries then
        ((analyze_with_retry_go decode provider max_retries (attempt + 1)).1 + 1,
          (analyze_with_retry_go decode provider max_retries (attempt + 1)).2)
      else (1, none)
    else (1, none)
termination_by max_retries - attempt
decreasing_by omega

/-- Embeds `GeminiClient._analyze_with_retry` (loop entered at attempt 0). -/
def analyze_with_retry {J : Type} (decode : String → Option J)
    (provider : ℕ → ProviderOutcome) (max_retries : ℕ) : ℕ × Option J :=
  analyze_with_retry_go decode provider max_retries 0

lemma analyze_go_rl_step {J : Type} (decode : String → Option J)
    (provider : ℕ → ProviderOutcome) (mr a : ℕ) (m : String)
    (h : provider a = .err m) (hrl : is_rate_limit_error m = true)
    (hlt : a < mr) :
    analyze_with_retry_go decode provider mr a =
      ((analyze_with_retry_go decode provider mr (a + 1)).1 + 1,
        (analyze_with_retry_go decode provider mr (a + 1)).2) := by
  rw [analyze_with_retry_go.eq_def, h]
  simp [hrl, hlt]

lemma analyze_go_rl_exhausted {J : Type} (decode : String → Option J)
    (provider : ℕ → ProviderOutcome) (mr a : ℕ) (m : String)
    (h : provider a = .err m) (hrl : is_rate_limit_error m = true)
    (hge : ¬ a < mr) :
    analyze_with_retry_go decode provider mr a = (1, (none : Option J)) := by
  rw [analyze_with_retry_go.eq_def, h]
  simp [hrl, hge]

lemma analyze_go_other_error {J : Type} (decode : String → Option J)
    (provider : ℕ → ProviderOutcome) (mr a : ℕ) (m : String)
    (h : provider a = .err m) (hrl : is_rate_limit_error m = false) :
    analyze_with_retry_go decode provider mr a = (1, (none : Option J)) := by
  rw [analyze_with_retry_go.eq_def, h]
  simp [hrl]

lemma analyze_go_all_rate_limited {J : Type} (decode : String → Option J)
    (provider : ℕ → ProviderOutcome) (mr : ℕ)
    (hall : ∀ i, ∃ m, provider i = ProviderOutcome.err m ∧
      is_rate_limit_error m = true) :
    ∀ n a, mr - a = n → a ≤ mr →
      analyze_with_retry_go decode provider mr a = (mr + 1 - a, (none : Option J)) := by
  intro n
  induction n with
  | zero =>
    intro a hn hle
    obtain ⟨m, hm, hrl⟩ := hall a
    rw [analyze_go_rl_exhausted decode provider mr a m hm hrl (by omega)]
    have : mr + 1 - a = 1 := by omega
    rw [this]
  | succ n ih =>
    intro a hn hle
    obtain ⟨m, hm, hrl⟩ := hall a
    rw [analyze_go_rl_step decode provider mr a m hm hrl (by omega)]
    rw [ih (a + 1) (by omega) (by omega)]
    have : mr + 1 - (a + 1) + 1 = mr + 1 - a := by omega
    simpa using this

/-- Claim C3: under any run of consecutive rate-limit errors the single-post
analysis makes exactly `max_retries + 1` provider attempts and then returns
the failure value `none` to its caller — no unbounded loop, and (the
embedding being a total function) no escaping exception. -/
theorem retry_budget_bounded :
    ∀ (J : Type) (decode : String → Option J) (provider : ℕ → ProviderOutcome)
      (max_retries : ℕ),
      (∀ i, ∃ m, provider i = ProviderOutcome.err m ∧
        is_rate_limit_error m = true) →
      analyze_with_retry decode provider max_retries =
        (max_retries + 1, (none : Option J)) := by
  intro J decode provider mr hall
  unfold analyze_with_retry
  rw [analyze_go_all_rate_limited decode provider mr hall mr 0 (by omega) (by omega)]
  simp

/-- Witness for claim C3: a provider that always raises a rate-limit error,
a budget of 2 retries: exactly 3 attempts, then failure. -/
theorem retry_budget_bounded_witness :
    analyze_with_retry (fun _ => (none : Option ℕ))
      (fun _ => ProviderOutcome.err "429 too many requests") 2 = (3, none) := by
  have h := retry_budget_bounded ℕ (fun _ => none)
    (fun _ => ProviderOutcome.err "429 too many requests") 2
    (fun _ => ⟨"429 too many requests", rfl, by decide⟩)
  simpa using h

/-- Claim C5: an error is classified rate-limited exactly when its case-folded
string form contains one of the six fixed substrings ("429" — which is how an
HTTP 429 status appears in the error string — "rate limit", "too many",
"quota", "resource has", "rate exceeded"); and an error not so classified
makes the analysis call return failure immediately, after a single provider
attempt and with no retry. -/
theorem rate_limit_classification :
    (∀ msg : String, is_rate_limit_error msg = true ↔
      (occursIn "429" (pyLower msg) = true ∨
       occursIn "rate limit" (pyLower msg) = true ∨
       occursIn "too many" (pyLower msg) = true ∨
       occursIn "quota" (pyLower msg) = true ∨
       occursIn "resource has" (pyLower msg) = true ∨
       occursIn "rate exceeded" (pyLower msg) = true)) ∧
    (∀ (J : Type) (decode : String → Option J)
      (provider : ℕ → ProviderOutcome) (max_retries : ℕ) (m : String),
      provider 0 = ProviderOutcome.err m → is_rate_limit_error m = false →
      analyze_with_retry decode provider max_retries = (1, (none : Option J))) := by
  constructor
  · intro msg
    simp only [is_rate_limit_error, rate_limit_indicators, List.any_cons,
      List.any_nil, Bool.or_eq_true, Bool.or_false]
    tauto
  · intro J decode provider mr m hm hrl
    unfold analyze_with_retry
    exact analyze_go_other_error decode provider mr 0 m hm hrl

/-- Witness for claim C5: "quota exceeded" is rate-limited; the error "boom"
is not, and the call fails immediately after one attempt. -/
theorem rate_limit_classification_witness :
    is_rate_limit_error "quota exceeded" = true ∧
    analyze_with_retry (fun _ => (none : Option ℕ))
      (fun _ => ProviderOutcome.err "boom") 5 = (1, none) :=
  ⟨(rate_limit_classification.1 "quota exceeded").mpr (by decide),
   rate_limit_classification.2 ℕ (fun _ => none) (fun _ => ProviderOutcome.err "boom")
     5 "boom" rfl (by decide)⟩

/-- The retry tunables of the client (`RATE_LIMIT_CONFIG` and its
per-instance override). -/
structure RateLimitConfig where
  initial_delay : ℚ
  max_delay : ℚ
  max_retries : ℕ
  backoff_multiplier : ℚ
  jitter : Bool
  request_delay : ℚ

/-- The module-level `RATE_LIMIT_CONFIG` defaults of gemini_client.py. -/
def RATE_LIMIT_CONFIG : RateLimitConfig :=
  ⟨2, 60, 5, 2, true, 2⟩

/-- Embeds `GeminiClient._calculate_backoff_delay`: exponential delay capped
at `max_delay`, 10% jitter when enabled (the random draw
`random.uniform(-r, r)` is modelled by an oracle `u` scaled by the jitter
range, `u ∈ [-1, 1]`), floored at 0.1 seconds. -/
def calculate_backoff_delay (config : RateLimitConfig) (u : ℚ) (attempt : ℕ) : ℚ :=
  let delay := config.initial_delay * config.backoff_multiplier ^ attempt
  let delay := min delay config.max_delay
  let delay := if config.jitter then delay + delay * (1/10) * u else delay
  max (1/10) delay

/-- Claim C4: with jitter disabled the computed delay is exactly
`max(0.1, min(initial_delay * multiplier ^ attempt, max_delay))`, is
non-decreasing in the attempt number, and never exceeds `max_delay` (for any
configuration with non-negative initial delay, multiplier at least 1 and a
cap of at least the 0.1-second floor — the defaults are 2, 2 and 60). -/
theorem backoff_monotone_capped :
    ∀ (config : RateLimitConfig) (u : ℚ) (attempt : ℕ),
      config.jitter = false →
      0 ≤ config.initial_delay →
      1 ≤ config.backoff_multiplier →
      1/10 ≤ config.max_delay →
      calculate_backoff_delay config u attempt =
        max (1/10) (min (config.initial_delay * config.backoff_multiplier ^ attempt)
          config.max_delay) ∧
      calculate_backoff_delay config u attempt ≤
        calculate_backoff_delay config u (attempt + 1) ∧
      calculate_backoff_delay config u attempt ≤ config.max_delay := by
  intro c u a hj h0 h1 hmd
  have hform : ∀ n : ℕ, calculate_backoff_delay c u n =
      max (1/10) (min (c.initial_delay * c.backoff_multiplier ^ n) c.max_delay) := by
    intro n
    simp [calculate_backoff_delay, hj]
  have hmono : c.initial_delay * c.backoff_multiplier ^ a ≤
      c.initial_delay * c.backoff_multiplier ^ (a + 1) := by
    apply mul_le_mul_of_nonneg_left _ h0
    exact pow_le_pow_right₀ h1 (Nat.le_succ a)
  refine ⟨hform a, ?_, ?_⟩
  · rw [hform a, hform (a + 1)]
    exact max_le_max le_rfl (min_le_min hmono le_rfl)
  · rw [hform a]
    exact max_le hmd (min_le_right _ _)

/-- Witness for claim C4 at the default configuration with jitter disabled,
attempt 3. -/
theorem backoff_monotone_capped_witness :
    calculate_backoff_delay ⟨2, 60, 5, 2, false, 2⟩ 0 3 ≤
      calculate_backoff_delay ⟨2, 60, 5, 2, false, 2⟩ 0 4 ∧
    calculate_backoff_delay ⟨2, 60, 5, 2, false, 2⟩ 0 3 ≤ 60 :=
  ⟨(backoff_monotone_capped ⟨2, 60, 5, 2, false, 2⟩ 0 3 rfl (by norm_num)
      (by norm_num) (by norm_num)).2.1,
   (backoff_monotone_capped ⟨2, 60, 5, 2, false, 2⟩ 0 3 rfl (by norm_num)
      (by norm_num) (by norm_num)).2.2⟩

/-- Claim C8: a response that parses directly is returned as parsed; on a
direct-parse failure the fences are stripped and the parse retried exactly
once, its result being final; and a second failure yields the parse-error
failure value `none` (the embedding is total: no exception). -/
theorem parse_fence_retry :
    ∀ (J : Type) (decode : String → Option J) (text : String),
      (∀ v, decode text = some v → parse_response decode text = some v) ∧
      (decode text = none →
        parse_response decode text = decode (strip_fences text)) ∧
      (decode text = none → decode (strip_fences text) = none →
        parse_response decode text = none) := by
  intro J decode text
  refine ⟨?_, ?_, ?_⟩
  · intro v hv
    unfold parse_response
    rw [hv]
  · intro h
    unfold parse_response
    rw [h]
  · intro h h2
    unfold parse_response
    rw [h, h2]

/-- A toy decoder accepting exactly the two-character JSON text of an empty
object, for the claim C8 witness. -/
def demoDecode : String → Option ℕ :=
  fun s => if s = "\x7b\x7d" then some 0 else none

/-- Witness for claim C8: a fenced response fails the direct parse, the
stripped text parses on the single retry. -/
theorem parse_fence_retry_witness :
    parse_response demoDecode "```json\n\x7b\x7d\n```" = some 0 := by
  have h := (parse_fence_retry ℕ demoDecode "```json\n\x7b\x7d\n```").2.1 (by decide)
  rw [h]
  decide

/-
Provider Orchestrator (src/analyzers/__init__.py, src/analyzers/ai_provider.py).
-/

/-- The `AIProvider` enum of ai_provider.py. -/
inductive AIProvider where
  | groq
  | ollama
  | huggingface
  | gemini
  | keyword
  deriving DecidableEq, Fintype

/-- Embeds `AnalyzerFactory.get_available_providers`: credential/endpoint
presence checks append each provider in the fixed order Groq (GROQ_API_KEY
set), Ollama (OLLAMA_MODEL set or use_ollama configured), HuggingFace
(always), Gemini (GEMINI_API_KEY set), Keyword (always). -/
def get_available_providers (groq_key has_ollama_model use_ollama gemini_key :
    Bool) : List AIProvider :=
  (if groq_key then [AIProvider.groq] else []) ++
  (if has_ollama_model || use_ollama then [AIProvider.ollama] else []) ++
  [AIProvider.huggingface] ++
  (if gemini_key then [AIProvider.gemini] else []) ++
  [AIProvider.keyword]

/-- Embeds `AnalyzerFactory.create_analyzer`: the keyword sentinel never
yields an analyzer; any other provider is constructed per the construction
oracle `create_ok`, a failure being caught and returned as `none`.  The
constructed analyzer is identified with its provider. -/
def create_analyzer (create_ok : AIProvider → Bool) (p : AIProvider) :
    Option AIProvider :=
  if p = AIProvider.keyword then none
  else if create_ok p then some p else none

/-- The auto-select loop of `get_analyzer`: iterate the available providers,
skip the keyword sentinel, return the first whose construction succeeds. -/
def auto_select (groq_key has_ollama_model use_ollama gemini_key : Bool)
    (create_ok : AIProvider → Bool) : Option AIProvider :=
  (get_available_providers groq_key has_ollama_model use_ollama
      gemini_key).findSome?
    (fun p => if p = AIProvider.keyword then none else create_analyzer create_ok p)

/-- Embeds `get_analyzer` (the requested provider already resolved to an enum
member, or `none`): an explicitly requested non-keyword provider is
constructed and returned on success, anything else falls through to
auto-selection; `none` signals "no AI available" (keyword-only mode). -/
def get_analyzer (groq_key has_ollama_model use_ollama gemini_key : Bool)
    (create_ok : AIProvider → Bool) (request : Option AIProvider) :
    Option AIProvider :=
  match request with
  | some p =>
    if p ≠ AIProvider.keyword then
      match create_analyzer create_ok p with
      | some a => some a
      | none => auto_select groq_key has_ollama_model use_ollama gemini_key create_ok
    else auto_select groq_key has_ollama_model use_ollama gemini_key create_ok
  | none => auto_select groq_key has_ollama_model use_ollama gemini_key create_ok

/-- Claim C9: the preference order is the fixed sequence Groq > Ollama >
HuggingFace > Gemini > keyword sentinel filtered by the presence checks;
auto-select returns the first non-keyword provider of that order whose
construction succeeds and signals "no AI" (`none`) when none succeeds; an
explicitly requested provider whose construction fails (capability-absent)
falls back to exactly the auto-selection result. -/
theorem provider_preference_order :
    ∀ (groq_key has_ollama_model use_ollama gemini_key : Bool)
      (create_ok : AIProvider → Bool),
      (get_available_providers groq_key has_ollama_model use_ollama gemini_key =
        ([AIProvider.groq, AIProvider.ollama, AIProvider.huggingface,
          AIProvider.gemini, AIProvider.keyword].filter (fun p =>
            match p with
            | AIProvider.groq => groq_key
            | AIProvider.ollama => has_ollama_model || use_ollama
            | AIProvider.huggingface => true
            | AIProvider.gemini => gemini_key
            | AIProvider.keyword => true))) ∧
      (get_analyzer groq_key has_ollama_model use_ollama gemini_key create_ok
          none =
        ((get_available_providers groq_key has_ollama_model use_ollama
            gemini_key).filter (fun p =>
          decide (p ≠ AIProvider.keyword) && create_ok p)).head?) ∧
      ((∀ p, create_ok p = false) →
        get_analyzer groq_key has_ollama_model use_ollama gemini_key create_ok
          none = none) ∧
      (∀ p, create_analyzer create_ok p = none →
        get_analyzer groq_key has_ollama_model use_ollama gemini_key create_ok
            (some p) =
          get_analyzer groq_key has_ollama_model use_ollama gemini_key
            create_ok none) := by
  decide

/-- Witness for claim C9: with Groq and Gemini keys present but every
construction failing, auto-select signals "no AI", and an explicit Gemini
request that cannot be constructed falls back to the auto-selection result. -/
theorem provider_preference_order_witness :
    (get_analyzer true false false true (fun _ => false) none = none) ∧
    (get_analyzer true false false true (fun _ => false) (some AIProvider.gemini) =
      get_analyzer true false false true (fun _ => false) none) :=
  ⟨(provider_preference_order true false false true (fun _ => false)).2.2.1
      (fun _ => rfl),
   (provider_preference_order true false false true (fun _ => false)).2.2.2
      AIProvider.gemini (by decide)⟩
